import Mathlib

/-!
# Verification of the dji-pano-stitcher pipeline script

Shallow embedding of `src/dji-pano-stitcher.py`, a linear pipeline script that
locates/downloads external tools and runs them in a fixed order.  External
effects (filesystem probes, `shutil.which`, subprocess exit status, network
downloads, archive extraction results) are modelled as parameters of an
abstract environment / world; the script's own control flow, path bookkeeping
and error messages are translated directly from the source.
-/

namespace PanoStitcher

/-! ## Resize stage arithmetic

Source lines 192-198: the ImageMagick invocation
`-extent %[fx:max(w,h*2)]x%[fx:max(w/2,h)]`, i.e. the new canvas is
`max(w, 2*h)` pixels wide and `max(w/2, h)` pixels high.  Modelled over the
rationals (exact arithmetic). -/

/-- New canvas width computed by the resize stage: `max(w, h*2)`. -/
def newWidth (w h : ℚ) : ℚ := max w (h * 2)

/-- New canvas height computed by the resize stage: `max(w/2, h)`. -/
def newHeight (w h : ℚ) : ℚ := max (w / 2) h

/-! ## Substring test

Used to state "the error message contains the tool's name". -/

/-- Predicate: `hasSubList l sub` is true iff `sub` occurs as a contiguous run inside `l`. -/
def hasSubList (l sub : List Char) : Bool :=
  sub.isPrefixOf l ||
    match l with
    | [] => false
    | _ :: t => hasSubList t sub

/-- Predicate: `containsSub s sub` is true iff `sub` occurs as a contiguous substring of `s`. -/
def containsSub (s sub : String) : Bool := hasSubList s.data sub.data

/-! ## Tool locator (source lines 17, 28-38, 56-64)

`Env` abstracts the parts of the operating system the locator consults:
the platform name, existence probes and `shutil.which`. -/

structure Env where
  system : String
  dirExists : String → Bool
  fileExists : String → Bool
  which : String → Option String

/-- Source line 17: `HUGIN_BIN` is the fixed Hugin install directory on
Windows and `None` elsewhere. -/
def huginBinDir (system : String) : Option String :=
  if system = "Windows" then some "C:\\Program Files\\Hugin\\bin" else none

/-- Failure message of `find_tool` (source line 38). -/
def toolNotFoundMsg (name : String) : String :=
  "Tool '" ++ name ++ "' not found in Hugin directory or PATH"

/-- Source lines 34-38: the fallback of `find_tool` — `shutil.which`, else
`fail`. -/
def findToolFallback (env : Env) (name : String) : Except String String :=
  match env.which name with
  | some found => .ok found
  | none => .error (toolNotFoundMsg name)

/-- Source line 31: `tool_path = HUGIN_BIN / (name + ".exe" if platform.system()
== "Windows" else name)`. -/
def huginToolPath (env : Env) (name hb : String) : String :=
  hb ++ "\\" ++ (if env.system = "Windows" then name ++ ".exe" else name)

/-- Source lines 28-38: `find_tool` checks the Hugin install directory first
(appending `.exe` on Windows), then falls back to `shutil.which`, and fails
with a message naming the tool otherwise. -/
def find_tool (env : Env) (name : String) : Except String String :=
  match huginBinDir env.system with
  | some hb =>
    if env.dirExists hb then
      if env.fileExists (huginToolPath env name hb) then .ok (huginToolPath env name hb)
      else findToolFallback env name
    else findToolFallback env name
  | none => findToolFallback env name

/-- Source line 63: `shutil.which("magick") or fail("ImageMagick not found in PATH")`. -/
def magickResolve (env : Env) : Except String String :=
  match env.which "magick" with
  | some found => .ok found
  | none => .error "ImageMagick not found in PATH"

end PanoStitcher

namespace PanoStitcher


end PanoStitcher

namespace PanoStitcher

/-! ## Asset fetcher: SkyFill (source lines 12-15, 68-100)

`ensure_skyfill` is modelled as a function of the platform name, whether the
previously downloaded executable is present, and whether extraction of the
downloaded archive yields the expected executable.  It returns the list of
downloads performed together with the result (the executable path, or the
`fail` message). -/

/-- Source lines 12-15: the platform → archive URL table. -/
def SKYFILL_URLS (system : String) : Option String :=
  if system = "Windows" then
    some "https://stuvelfoto.nl/downloads/skyfill/skyfill-v1.6-windows.zip"
  else if system = "Linux" then
    some "https://stuvelfoto.nl/downloads/skyfill/skyfill-v1.6-linux.tar.gz"
  else none

/-- Source line 75: `tools/skyfill/skyfill` (with `.exe` on Windows). -/
def skyfillExe (system : String) : String :=
  "tools/skyfill/" ++ (if system = "Windows" then "skyfill.exe" else "skyfill")

/-- Source lines 68-100, `ensure_skyfill`: the URL table is consulted (and an
unsupported platform is fatal) before the check for a previously downloaded
executable; a present local copy short-circuits the download.  The returned
list holds the URLs actually downloaded. -/
def ensure_skyfill (system : String) (localExists extractYieldsExe : Bool) :
    List String × Except String String :=
  match SKYFILL_URLS system with
  | none => ([], .error ("SkyFill not available for " ++ system))
  | some url =>
    if localExists then ([], .ok (skyfillExe system))
    else if extractYieldsExe then ([url], .ok (skyfillExe system))
    else ([url], .error "SkyFill executable not found after extraction")

/-! ## Asset fetcher: ExifTool, Windows branch (source lines 106-154)

The filesystem below `tools/exiftool/` is modelled as the list of its files,
each a path given by its components relative to `tools/exiftool/`
(directories exist implicitly).  `pathlib` operations are translated:
`exists` is membership, `rglob("*.exe")` filters on the final component,
`iterdir` lists the immediate children of a directory, and `rename` moves a
file or a whole subtree. -/

/-- A file path, as components relative to `tools/exiftool/`. -/
abbrev EPath := List String

/-- The files currently on disk below `tools/exiftool/`. -/
abbrev FS := List EPath

/-- Source line 111: the expected executable `exiftool.exe`. -/
def exiftoolExePath : EPath := ["exiftool.exe"]

/-- Source line 135: the conventional name the archive uses, `exiftool(-k).exe`. -/
def exiftoolTempExePath : EPath := ["exiftool(-k).exe"]

/-- Model of `Path.rename`: every file at or below `src` is moved below `dst`.
(The source never renames onto an occupied destination in the runs modelled
here, so collision errors are not modelled.) -/
def renameEntry (fs : FS) (src dst : EPath) : FS :=
  fs.map fun q => if src.isPrefixOf q then dst ++ q.drop src.length else q

/-- Whether `s` ends with `suf` (structurally, over the character lists). -/
def strEndsWith (s suf : String) : Bool := suf.data.isSuffixOf s.data

/-- Model of `exiftool_dir.rglob("*.exe")` (source line 140): the files whose final
component ends in `.exe`, in on-disk order. -/
def rglobExe (fs : FS) : List EPath :=
  fs.filter fun q =>
    match q.getLast? with
    | some n => strEndsWith n ".exe"
    | none => false

/-- Model of `subdir.iterdir()` (source line 144): names of the immediate children
(files or subdirectories) of `d`, without duplicates. -/
def childNames (fs : FS) (d : EPath) : List String :=
  (fs.filterMap fun q =>
    if d.isPrefixOf q ∧ d.length < q.length then q.get? d.length else none).dedup

/-- One iteration of the relocation loop (source lines 144-148): move the
entry `n` of `subdir` up to the root, and if the moved entry is the file
`exiftool(-k).exe`, rename it to `exiftool.exe`. -/
def moveStep (subdir : EPath) (fs : FS) (n : String) : FS :=
  let fs1 := renameEntry fs (subdir ++ [n]) [n]
  if [n] ∈ fs1 ∧ n = "exiftool(-k).exe" then renameEntry fs1 [n] exiftoolExePath
  else fs1

/-- Source lines 134-153: the post-extraction logic of `ensure_exiftool`.
If `exiftool(-k).exe` sits at the root it is renamed into place; otherwise,
if `exiftool.exe` is absent, the directory tree is searched for any `.exe`,
the first hit's directory is emptied into the root (renaming
`exiftool(-k).exe` when it appears), and that directory is removed —
`rmdir` raising `OSError` when the directory is still non-empty.  Only when
no `.exe` exists at all does the code call `fail`. -/
def exiftoolPostExtract (fs : FS) : Except String FS :=
  if exiftoolTempExePath ∈ fs then .ok (renameEntry fs exiftoolTempExePath exiftoolExePath)
  else if exiftoolExePath ∈ fs then .ok fs
  else
    match rglobExe fs with
    | [] => .error "ExifTool executable not found after extraction"
    | found :: _ =>
      let subdir := found.dropLast
      let fs1 := (childNames fs subdir).foldl (moveStep subdir) fs
      if fs1.any (fun q => decide (subdir.isPrefixOf q = true ∧ subdir.length < q.length)) then
        .error "OSError: Directory not empty"
      else .ok fs1

/-- Source lines 106-154, `ensure_exiftool` on Windows: return the expected
path immediately when `exiftool.exe` is already present, otherwise download
and extract the archive (`extract` gives the resulting file set) and run the
post-extraction logic.  Note the returned path is `exiftool.exe` whether or
not the post-extraction logic actually produced that file. -/
def ensureExiftoolWin (fs : FS) (extract : FS → FS) :
    Except String (EPath × FS) :=
  if exiftoolExePath ∈ fs then .ok (exiftoolExePath, fs)
  else
    match exiftoolPostExtract (extract fs) with
    | .ok fs1 => .ok (exiftoolExePath, fs1)
    | .error m => .error m

end PanoStitcher

namespace PanoStitcher

/-! ## Pipeline sequencer (source lines 40-229)

The script is embedded as a function from an abstract `World` (everything the
environment decides: probe results, subprocess exit statuses, ...) to the
list of observable events it performs together with its exit status
(`true` = exit code 0).  A failed step — `fail(...)` or a raised
exception — terminates the run immediately, leaving the events performed so
far. -/

inductive StageGroup where
  | stitch
  | resize
  | sky
  | exif
deriving DecidableEq, Repr

inductive Event where
  | toolLookup (name : String)
  | download (url : String)
  | runCmd (group : StageGroup) (cmd : List String)
  | renameFile (src dst : String)
  | rmTree (dir : String)
  | failEvent (msg : String)
deriving DecidableEq, Repr

def Event.isRunOf : Event → StageGroup → Bool
  | .runCmd g _, g' => g == g'
  | _, _ => false

def Event.isRun : Event → Bool
  | .runCmd _ _ => true
  | _ => false

def Event.isToolLookup : Event → Bool
  | .toolLookup _ => true
  | _ => false

def Event.isDownload : Event → Bool
  | .download _ => true
  | _ => false

def Event.isRmTree : Event → Bool
  | .rmTree _ => true
  | _ => false

/-- A script fragment: the events it performs, and either its value or the
message of the fatal error that cut it short. -/
def Proc (α : Type) : Type := List Event × Except String α

/-- Sequencing of script fragments: on error the continuation never runs. -/
def pseq {α β : Type} (x : Proc α) (f : α → Proc β) : Proc β :=
  match x with
  | (evs, .error m) => (evs, .error m)
  | (evs, .ok a) =>
    let y := f a
    (evs ++ y.1, y.2)

/-- Top level: `fail(msg)` prints the message and exits nonzero
(source lines 24-26); success exits zero. -/
def finish (x : Proc Unit) : List Event × Bool :=
  match x with
  | (evs, .ok _) => (evs, true)
  | (evs, .error m) => (evs ++ [.failEvent m], false)

/-- Resolved paths of the seven required tools (source lines 56-64). -/
structure Tools where
  pto_gen : String
  cpfind : String
  autooptimiser : String
  pano_modify : String
  nona : String
  enblend : String
  magick : String

/-- Everything the run's environment decides, fixed before the run. -/
structure World where
  /-- Result of `image_dir.is_dir()` (source line 51). -/
  imagesIsDir : Bool
  /-- Value of `str(image_dir)` — the positional argument. -/
  imagesPath : String
  /-- Value of `image_dir.name` (source line 202). -/
  imagesName : String
  /-- the `--debug-skip` flag (source line 47). -/
  debugSkip : Bool
  env : Env
  /-- Whether `tools/skyfill/skyfill(.exe)` already exists (source line 77). -/
  skyfillLocalExists : Bool
  /-- extracting the SkyFill archive yields the executable (source line 94). -/
  skyfillExtractOk : Bool
  /-- files below `tools/exiftool/` before the run. -/
  exiftoolFS : FS
  /-- effect on `tools/exiftool/` of downloading and extracting the archive. -/
  exiftoolExtract : FS → FS
  /-- Whether `temp/stitched.tif` exists from a previous run (source line 172). -/
  stitchedExists : Bool
  /-- Whether `temp/resized.jpg` exists from a previous run (source line 188). -/
  resizedExists : Bool
  /-- Result of `TEMP_DIR.glob("pano*.tif")` at the enblend call (source line 183). -/
  panoTifs : List String
  /-- exit status of each external command (`True` = exit code 0). -/
  runOk : List String → Bool
  /-- SkyFill wrote `temp/resized-filled.jpg` (source line 213). -/
  skyfillMadeOutput : Bool

/-- Path `temp/pano.pto` (source line 169). -/
def ptoPath : String := "temp/pano.pto"

/-- Path `temp/stitched.tif` (source line 170). -/
def stitchedPath : String := "temp/stitched.tif"

/-- Path `temp/resized.jpg` (source line 186). -/
def resizedPath : String := "temp/resized.jpg"

/-- Path `resized.parent / (resized.stem + "-filled.jpg")` (source line 204). -/
def skyfillOutPath : String := "temp/resized-filled.jpg"

/-- Path of the final image (source line 202). -/
def finalPath (w : World) : String := "output/" ++ w.imagesName ++ "_pano.jpg"

/-- Wrapper: `find_tool` with its lookup recorded as an event. -/
def find_toolP (env : Env) (name : String) : Proc String :=
  ([.toolLookup name], find_tool env name)

/-- The `magick` entry of `TOOLS` (source line 63). -/
def magickP (env : Env) : Proc String :=
  ([.toolLookup "magick"], magickResolve env)

/-- Source lines 56-64: the `TOOLS` table, built entry by entry; the first
failed lookup aborts the run. -/
def resolveTools (env : Env) : Proc Tools :=
  pseq (find_toolP env "pto_gen") fun t1 =>
  pseq (find_toolP env "cpfind") fun t2 =>
  pseq (find_toolP env "autooptimiser") fun t3 =>
  pseq (find_toolP env "pano_modify") fun t4 =>
  pseq (find_toolP env "nona") fun t5 =>
  pseq (find_toolP env "enblend") fun t6 =>
  pseq (magickP env) fun t7 =>
  ([], .ok ⟨t1, t2, t3, t4, t5, t6, t7⟩)

/-- Wrapper: `ensure_skyfill` at the script level; its download, if any, is recorded. -/
def skyfillP (w : World) : Proc String :=
  let r := ensure_skyfill w.env.system w.skyfillLocalExists w.skyfillExtractOk
  (r.1.map Event.download, r.2)

/-- Source line 16. -/
def EXIFTOOL_URL : String :=
  "https://sourceforge.net/projects/exiftool/files/exiftool-13.45_64.zip/download"

/-- Source line 160: the Linux-branch failure message of `ensure_exiftool`. -/
def exiftoolLinuxMsg : String :=
  "ExifTool not found. Please install it using your package manager (e.g., 'sudo apt install libimage-exiftool-perl')"

/-- Rendering of a path below `tools/exiftool/` as a string. -/
def exiftoolPathStr (p : EPath) : String :=
  "tools/exiftool/" ++ String.intercalate "/" p

/-- Source lines 106-160, `ensure_exiftool` at the script level: the Windows
branch downloads and unpacks the archive (via `ensureExiftoolWin`) unless the
executable is already present; elsewhere the tool must come from `PATH`. -/
def exiftoolP (w : World) : Proc String :=
  if w.env.system = "Windows" then
    if exiftoolExePath ∈ w.exiftoolFS then ([], .ok (exiftoolPathStr exiftoolExePath))
    else
      match ensureExiftoolWin w.exiftoolFS w.exiftoolExtract with
      | .ok _ => ([.download EXIFTOOL_URL], .ok (exiftoolPathStr exiftoolExePath))
      | .error m => ([.download EXIFTOOL_URL], .error m)
  else
    match w.env.which "exiftool" with
    | some found => ([], .ok found)
    | none => ([], .error exiftoolLinuxMsg)

/-- Source lines 40-42, `run(cmd)`: invoke one external command;
`subprocess.run(..., check=True)` raises on a nonzero exit, which aborts the
whole script. -/
def runP (w : World) (g : StageGroup) (cmd : List String) : Proc Unit :=
  ([.runCmd g cmd], if w.runOk cmd then .ok () else .error "CalledProcessError")

/-- Run a list of commands in order, stopping at the first failure. -/
def runSeq (w : World) (g : StageGroup) : List (List String) → Proc Unit
  | [] => ([], .ok ())
  | c :: rest => pseq (runP w g c) fun _ => runSeq w g rest

/-- Source lines 175-183: the six commands of the stitch group. -/
def stitchCmds (w : World) (t : Tools) : List (List String) :=
  [ [t.pto_gen, w.imagesPath ++ "/*", "-o", ptoPath],
    [t.cpfind, "--multirow", "-o", ptoPath, ptoPath],
    [t.autooptimiser, "-a", "-m", "-l", "-s", "-o", ptoPath, ptoPath],
    [t.pano_modify, "--canvas=AUTO", "-o", ptoPath, ptoPath],
    [t.nona, "-o", "temp/pano", ptoPath],
    [t.enblend, "-o", stitchedPath] ++ w.panoTifs ]

/-- Source lines 172-183: the stitch group, skipped when `--debug-skip` is
set and `temp/stitched.tif` exists. -/
def stitchP (w : World) (t : Tools) : Proc Unit :=
  if w.debugSkip && w.stitchedExists then ([], .ok ())
  else runSeq w .stitch (stitchCmds w t)

/-- Source lines 192-198: the resize command. -/
def resizeCmd (t : Tools) : List String :=
  [t.magick, stitchedPath, "-gravity", "south", "-background", "black",
   "-extent", "%[fx:max(w,h*2)]x%[fx:max(w/2,h)]", resizedPath]

/-- Source lines 188-198: the resize group, skipped when `--debug-skip` is
set and `temp/resized.jpg` exists. -/
def resizeP (w : World) (t : Tools) : Proc Unit :=
  if w.debugSkip && w.resizedExists then ([], .ok ())
  else runP w .resize (resizeCmd t)

/-- Source lines 205-211: the SkyFill invocation on `temp/resized.jpg`. -/
def skyCmd (sky : String) : List String :=
  [sky, "-quality", "95", "-no-gpano-xmp", "-out", "jpeg", resizedPath]

/-- Source lines 213-214: `fail` unless SkyFill produced its output file. -/
def checkSkyOutP (w : World) : Proc Unit :=
  if w.skyfillMadeOutput then ([], .ok ())
  else ([], .error ("SkyFill did not create expected output file: " ++ skyfillOutPath))

/-- Source line 215: move SkyFill's output to the final location. -/
def relocateP (w : World) : Proc Unit :=
  ([.renameFile skyfillOutPath (finalPath w)], .ok ())

/-- Source lines 219-225: the ExifTool metadata invocation. -/
def exifCmd (exif : String) (w : World) : List String :=
  [exif, "-UsePanoramaViewer=true", "-ProjectionType=equirectangular",
   "-overwrite_original", finalPath w]

/-- Source line 228: `shutil.rmtree(TEMP_DIR)`. -/
def cleanupP : Proc Unit :=
  ([.rmTree "temp"], .ok ())

/-- The whole script (source lines 44-229), from the input-folder check to
cleanup, as events plus exit status. -/
def script (w : World) : List Event × Bool :=
  if w.imagesIsDir then
    finish (
      pseq (resolveTools w.env) fun tools =>
      pseq (skyfillP w) fun sky =>
      pseq (exiftoolP w) fun exif =>
      pseq (stitchP w tools) fun _ =>
      pseq (resizeP w tools) fun _ =>
      pseq (runP w .sky (skyCmd sky)) fun _ =>
      pseq (checkSkyOutP w) fun _ =>
      pseq (relocateP w) fun _ =>
      pseq (runP w .exif (exifCmd exif w)) fun _ =>
      cleanupP)
  else ([.failEvent "Image folder does not exist"], false)

/-! ## Stage output paths (for the path-bookkeeping invariant)

Each stage's output is written under the temp workspace; the table below
records, for each stage name, the file (or, for `nona`, the file prefix) the
stage's command writes, read off the `-o`/final arguments of the invocations
at source lines 176-198 and the SkyFill naming convention at line 204.
A path is modelled as the pair (workspace directory, file name). -/

def projectStages : List String := ["pto_gen", "cpfind", "autooptimiser", "pano_modify"]

def stageNames : List String :=
  projectStages ++ ["nona", "enblend", "magick", "skyfill"]

/-- The file each stage writes inside the temp workspace (`nona` writes the
family `pano0000.tif`, ..., abbreviated by its prefix `pano`). -/
def stageOutputFile : String → String
  | "pto_gen" => "pano.pto"
  | "cpfind" => "pano.pto"
  | "autooptimiser" => "pano.pto"
  | "pano_modify" => "pano.pto"
  | "nona" => "pano"
  | "enblend" => "stitched.tif"
  | "magick" => "resized.jpg"
  | _ => "resized-filled.jpg"

/-- A stage's output path: a deterministic function of the temp workspace
and the stage name. -/
def stageOutputPath (tempDir name : String) : String × String :=
  (tempDir, stageOutputFile name)

/-! ## Cleanup semantics

`shutil.rmtree(TEMP_DIR)` (source line 228) removes the tree rooted at the
top-level directory `temp`.  The project layout is modelled as a list of
files given by path components relative to the working directory. -/

def rmtreeFS (fs : List (List String)) (dir : String) : List (List String) :=
  fs.filter fun q => q.head? != some dir

instance exceptDecEq {ε α : Type} [DecidableEq ε] [DecidableEq α] :
    DecidableEq (Except ε α)
  | .error e1, .error e2 => decidable_of_iff (e1 = e2) (by simp)
  | .error _, .ok _ => isFalse (by simp)
  | .ok _, .error _ => isFalse (by simp)
  | .ok a1, .ok a2 => decidable_of_iff (a1 = a2) (by simp)

/-- Lower-casing, structurally over the character list. -/
def toLowerStr (s : String) : String := ⟨s.data.map Char.toLower⟩

/-- An environment with no Hugin directory and an empty search path. -/
def envNoTools : Env :=
  { system := "Linux"
    dirExists := fun _ => false
    fileExists := fun _ => false
    which := fun _ => none }

/-! ## Concrete runs used as witnesses -/

/-- A Linux environment where every tool is on the search path. -/
def envLinux : Env :=
  { system := "Linux"
    dirExists := fun _ => true
    fileExists := fun _ => true
    which := fun n => some ("/usr/bin/" ++ n) }

/-- A fully healthy debug-skip run: both intermediate outputs exist, every
command succeeds, SkyFill produces its output. -/
def wGood : World :=
  { imagesIsDir := true
    imagesPath := "shots"
    imagesName := "shots"
    debugSkip := true
    env := envLinux
    skyfillLocalExists := true
    skyfillExtractOk := true
    exiftoolFS := []
    exiftoolExtract := fun fs => fs
    stitchedExists := true
    resizedExists := true
    panoTifs := ["temp/pano0000.tif"]
    runOk := fun _ => true
    skyfillMadeOutput := true }

/-- Like `wGood`, but `temp/stitched.tif` is missing while `temp/resized.jpg`
survives from an earlier run. -/
def wStale : World := { wGood with stitchedExists := false }

/-- Like `wGood`, but SkyFill fails to produce its output file, so the run
dies mid-pipeline. -/
def wFailMid : World := { wGood with skyfillMadeOutput := false }

/-- Like `wGood`, but the input image folder does not exist. -/
def wNoDir : World := { wGood with imagesIsDir := false }

end PanoStitcher

namespace PanoStitcher

/-! ### Basic lemmas about the substring test -/

theorem isPrefixOf_append (l t : List Char) : l.isPrefixOf (l ++ t) = true := by
  induction l with
  | nil => simp [List.isPrefixOf]
  | cons c cs ih => simp [List.isPrefixOf, ih]

theorem hasSubList_of_isPrefixOf {l sub : List Char} (h : sub.isPrefixOf l = true) :
    hasSubList l sub = true := by
  cases l with
  | nil => simp [hasSubList, h]
  | cons c cs => simp [hasSubList, h]

theorem hasSubList_append (a sub b : List Char) :
    hasSubList (a ++ sub ++ b) sub = true := by
  induction a with
  | nil =>
    apply hasSubList_of_isPrefixOf
    exact isPrefixOf_append sub b
  | cons c cs ih =>
    simp only [List.cons_append, hasSubList, List.append_eq, ih, Bool.or_true]

theorem containsSub_of_append (a sub b : String) :
    containsSub (a ++ sub ++ b) sub = true := by
  have := hasSubList_append a.data sub.data b.data
  simpa [containsSub, String.data_append] using this

/-! ## Structural lemmas about the sequencing combinators -/

theorem pseq_ok_of {α β : Type} {x : Proc α} {a : α} (h : x.2 = .ok a) (f : α → Proc β) :
    pseq x f = (x.1 ++ (f a).1, (f a).2) := by
  rcases x with ⟨evs, r⟩
  cases r with
  | error m => exact absurd h (by simp)
  | ok b =>
    simp only at h
    cases h
    rfl

theorem pseq_error_of {α β : Type} {x : Proc α} {m : String} (h : x.2 = .error m)
    (f : α → Proc β) : pseq x f = (x.1, .error m) := by
  rcases x with ⟨evs, r⟩
  cases r with
  | error m2 =>
    simp only at h
    cases h
    rfl
  | ok b => exact absurd h (by simp)

theorem pseq_ok_decomp {α β : Type} {x : Proc α} {f : α → Proc β} {b : β}
    (h : (pseq x f).2 = .ok b) :
    ∃ a, x.2 = .ok a ∧ (f a).2 = .ok b ∧ (pseq x f).1 = x.1 ++ (f a).1 := by
  rcases x with ⟨evs, r⟩
  cases r with
  | error m => exact absurd h (by simp [pseq])
  | ok a => exact ⟨a, rfl, by simpa [pseq] using h, by simp [pseq]⟩

theorem pseq_events_all {α β : Type} {p : Event → Bool} {x : Proc α} {f : α → Proc β}
    (hx : x.1.all p = true) (hf : ∀ a, (f a).1.all p = true) :
    (pseq x f).1.all p = true := by
  rcases x with ⟨evs, r⟩
  cases r with
  | error m => simpa [pseq] using hx
  | ok a =>
    simp only [pseq, List.all_append]
    simp only at hx
    simp [hx, hf a]

theorem pseq_fail_all {α β : Type} {p : Event → Bool} {x : Proc α} {f : α → Proc β} {m : String}
    (hm : (pseq x f).2 = .error m) (hx : x.1.all p = true)
    (hf : ∀ a m2, (f a).2 = .error m2 → (f a).1.all p = true) :
    (pseq x f).1.all p = true := by
  rcases x with ⟨evs, r⟩
  cases r with
  | error m2 => simpa [pseq] using hx
  | ok a =>
    simp only [pseq, List.all_append]
    simp only at hx
    simp only [pseq] at hm
    simp [hx, hf a m hm]

theorem finish_eq_of_ok {x : Proc Unit} (h : x.2 = .ok ()) : finish x = (x.1, true) := by
  rcases x with ⟨evs, r⟩
  cases r with
  | error m => exact absurd h (by simp)
  | ok u => rfl

theorem finish_eq_of_error {x : Proc Unit} {m : String} (h : x.2 = .error m) :
    finish x = (x.1 ++ [.failEvent m], false) := by
  rcases x with ⟨evs, r⟩
  cases r with
  | error m2 =>
    simp only at h
    cases h
    rfl
  | ok u => exact absurd h (by simp)

theorem finish_true_ok {x : Proc Unit} (h : (finish x).2 = true) : x.2 = .ok () := by
  rcases x with ⟨evs, r⟩
  cases r with
  | error m => simp [finish] at h
  | ok u => rfl

theorem finish_false_error {x : Proc Unit} (h : (finish x).2 = false) :
    ∃ m, x.2 = .error m := by
  rcases x with ⟨evs, r⟩
  cases r with
  | error m => exact ⟨m, rfl⟩
  | ok u => simp [finish] at h

theorem ends_with_append {l t : List Event} {x : Event} (h : ∃ q, t = q ++ [x]) :
    ∃ q2, l ++ t = q2 ++ [x] := by
  obtain ⟨q, hq⟩ := h
  exact ⟨l ++ q, by rw [hq, List.append_assoc]⟩

/-! ## Which events each component can perform -/

theorem all_mono {p q : Event → Bool} (h : ∀ e, p e = true → q e = true)
    {l : List Event} (hl : l.all p = true) : l.all q = true := by
  simp only [List.all_eq_true] at *
  exact fun e he => h e (hl e he)

theorem resolveTools_events_all (env : Env) {p : Event → Bool}
    (h : ∀ n, p (.toolLookup n) = true) : (resolveTools env).1.all p = true := by
  unfold resolveTools
  refine pseq_events_all (by simp [find_toolP, h]) fun t1 => ?_
  refine pseq_events_all (by simp [find_toolP, h]) fun t2 => ?_
  refine pseq_events_all (by simp [find_toolP, h]) fun t3 => ?_
  refine pseq_events_all (by simp [find_toolP, h]) fun t4 => ?_
  refine pseq_events_all (by simp [find_toolP, h]) fun t5 => ?_
  refine pseq_events_all (by simp [find_toolP, h]) fun t6 => ?_
  refine pseq_events_all (by simp [magickP, h]) fun t7 => ?_
  simp

theorem skyfillP_events_all (w : World) {p : Event → Bool}
    (h : ∀ u, p (.download u) = true) : (skyfillP w).1.all p = true := by
  simp only [skyfillP, List.all_eq_true]
  intro e he
  simp only [List.mem_map] at he
  obtain ⟨u, _, rfl⟩ := he
  exact h u

theorem exiftoolP_events_all (w : World) {p : Event → Bool}
    (h : ∀ u, p (.download u) = true) : (exiftoolP w).1.all p = true := by
  unfold exiftoolP
  split
  · split
    · simp
    · split <;> simp [h]
  · split <;> simp

theorem runP_events_all (w : World) (g : StageGroup) (cmd : List String) {p : Event → Bool}
    (h : p (.runCmd g cmd) = true) : (runP w g cmd).1.all p = true := by
  simp [runP, h]

theorem runSeq_events_all (w : World) (g : StageGroup) (cmds : List (List String))
    {p : Event → Bool} (h : ∀ c, p (.runCmd g c) = true) :
    (runSeq w g cmds).1.all p = true := by
  induction cmds with
  | nil => simp [runSeq]
  | cons c rest ih =>
    exact pseq_events_all (runP_events_all w g c (h c)) fun _ => ih

theorem stitchP_events_all (w : World) (t : Tools) {p : Event → Bool}
    (h : (w.debugSkip && w.stitchedExists) = true ∨ ∀ c, p (.runCmd .stitch c) = true) :
    (stitchP w t).1.all p = true := by
  unfold stitchP
  rcases h with h | h
  · simp [h]
  · split
    · simp
    · exact runSeq_events_all w .stitch (stitchCmds w t) h

theorem resizeP_events_all (w : World) (t : Tools) {p : Event → Bool}
    (h : (w.debugSkip && w.resizedExists) = true ∨ ∀ c, p (.runCmd .resize c) = true) :
    (resizeP w t).1.all p = true := by
  unfold resizeP
  rcases h with h | h
  · simp [h]
  · split
    · simp
    · exact runP_events_all w .resize (resizeCmd t) (h _)

theorem checkSkyOutP_events_all (w : World) {p : Event → Bool} :
    (checkSkyOutP w).1.all p = true := by
  unfold checkSkyOutP
  split <;> simp

theorem relocateP_events_all (w : World) {p : Event → Bool}
    (h : ∀ s d, p (.renameFile s d) = true) : (relocateP w).1.all p = true := by
  simp [relocateP, h]

theorem cleanupP_events_all {p : Event → Bool} (h : p (.rmTree "temp") = true) :
    cleanupP.1.all p = true := by
  simp [cleanupP, h]

theorem cleanupP_never_fails {m : String} (h : cleanupP.2 = .error m) : False := by
  simp [cleanupP] at h

/-- Every event of a full run (successful or not) satisfies `p`, given that
`p` holds of each kind of event the script can perform; stage groups that are
skipped need no justification for their commands. -/
theorem script_events_all (w : World) {p : Event → Bool}
    (hLook : ∀ n, p (.toolLookup n) = true)
    (hDown : ∀ u, p (.download u) = true)
    (hStitch : (w.debugSkip && w.stitchedExists) = true ∨ ∀ c, p (.runCmd .stitch c) = true)
    (hResize : (w.debugSkip && w.resizedExists) = true ∨ ∀ c, p (.runCmd .resize c) = true)
    (hSky : ∀ c, p (.runCmd .sky c) = true)
    (hExif : ∀ c, p (.runCmd .exif c) = true)
    (hRen : ∀ s d, p (.renameFile s d) = true)
    (hRm : p (.rmTree "temp") = true)
    (hFail : ∀ m, p (.failEvent m) = true) :
    (script w).1.all p = true := by
  unfold script
  split
  · have hx : (pseq (resolveTools w.env) fun tools =>
        pseq (skyfillP w) fun sky =>
        pseq (exiftoolP w) fun exif =>
        pseq (stitchP w tools) fun _ =>
        pseq (resizeP w tools) fun _ =>
        pseq (runP w .sky (skyCmd sky)) fun _ =>
        pseq (checkSkyOutP w) fun _ =>
        pseq (relocateP w) fun _ =>
        pseq (runP w .exif (exifCmd exif w)) fun _ =>
        cleanupP).1.all p = true := by
      refine pseq_events_all (resolveTools_events_all w.env hLook) fun tools => ?_
      refine pseq_events_all (skyfillP_events_all w hDown) fun sky => ?_
      refine pseq_events_all (exiftoolP_events_all w hDown) fun exif => ?_
      refine pseq_events_all (stitchP_events_all w tools hStitch) fun _ => ?_
      refine pseq_events_all (resizeP_events_all w tools hResize) fun _ => ?_
      refine pseq_events_all (runP_events_all w .sky _ (hSky _)) fun _ => ?_
      refine pseq_events_all (checkSkyOutP_events_all w) fun _ => ?_
      refine pseq_events_all (relocateP_events_all w hRen) fun _ => ?_
      refine pseq_events_all (runP_events_all w .exif _ (hExif _)) fun _ => ?_
      exact cleanupP_events_all hRm
    rcases hfin : (pseq (resolveTools w.env) fun tools =>
        pseq (skyfillP w) fun sky =>
        pseq (exiftoolP w) fun exif =>
        pseq (stitchP w tools) fun _ =>
        pseq (resizeP w tools) fun _ =>
        pseq (runP w .sky (skyCmd sky)) fun _ =>
        pseq (checkSkyOutP w) fun _ =>
        pseq (relocateP w) fun _ =>
        pseq (runP w .exif (exifCmd exif w)) fun _ =>
        cleanupP).2 with m | u
    · rw [finish_eq_of_error hfin]
      simp only [List.all_append]
      rw [hx]
      simp [hFail]
    · rw [finish_eq_of_ok (by rw [hfin])]
      exact hx
  · simp [hFail]

end PanoStitcher

namespace PanoStitcher

/-- On a failed run, every event performed satisfies `p`, given that `p`
holds of every event kind except the final `rmtree` — which, being the last
step and never itself failing, cannot appear in a failed run's trace. -/
theorem script_fail_all (w : World) {p : Event → Bool}
    (hLook : ∀ n, p (.toolLookup n) = true)
    (hDown : ∀ u, p (.download u) = true)
    (hRun : ∀ g c, p (.runCmd g c) = true)
    (hRen : ∀ s d, p (.renameFile s d) = true)
    (hFail : ∀ m, p (.failEvent m) = true)
    (hf : (script w).2 = false) :
    (script w).1.all p = true := by
  cases himg : w.imagesIsDir with
  | false => simp [script, himg, hFail]
  | true =>
    simp only [script, himg, if_true] at hf ⊢
    obtain ⟨m, hm⟩ := finish_false_error hf
    rw [finish_eq_of_error hm]
    simp only [List.all_append]
    have hx : (pseq (resolveTools w.env) fun tools =>
        pseq (skyfillP w) fun sky =>
        pseq (exiftoolP w) fun exif =>
        pseq (stitchP w tools) fun _ =>
        pseq (resizeP w tools) fun _ =>
        pseq (runP w .sky (skyCmd sky)) fun _ =>
        pseq (checkSkyOutP w) fun _ =>
        pseq (relocateP w) fun _ =>
        pseq (runP w .exif (exifCmd exif w)) fun _ =>
        cleanupP).1.all p = true := by
      refine pseq_fail_all hm (resolveTools_events_all w.env hLook) ?_
      intro tools m2 hm2
      refine pseq_fail_all hm2 (skyfillP_events_all w hDown) ?_
      intro sky m3 hm3
      refine pseq_fail_all hm3 (exiftoolP_events_all w hDown) ?_
      intro exif m4 hm4
      refine pseq_fail_all hm4 (stitchP_events_all w tools (Or.inr fun c => hRun _ c)) ?_
      intro _ m5 hm5
      refine pseq_fail_all hm5 (resizeP_events_all w tools (Or.inr fun c => hRun _ c)) ?_
      intro _ m6 hm6
      refine pseq_fail_all hm6 (runP_events_all w .sky _ (hRun _ _)) ?_
      intro _ m7 hm7
      refine pseq_fail_all hm7 (checkSkyOutP_events_all w) ?_
      intro _ m8 hm8
      refine pseq_fail_all hm8 (relocateP_events_all w hRen) ?_
      intro _ m9 hm9
      refine pseq_fail_all hm9 (runP_events_all w .exif _ (hRun _ _)) ?_
      intro _ m10 hm10
      exact absurd hm10 (fun h => cleanupP_never_fails h)
    simp [hx, hFail]


end PanoStitcher

namespace PanoStitcher

/-! ## Claim C1 -/

/-- C1: for every input raster of width `w` and height `h`, the resize
stage's computed output dimensions — new width `max(w, 2h)`, new height
`max(w/2, h)` — satisfy new width = 2 × new height, under exact rational
arithmetic. -/
theorem resize_dims_ratio (w h : ℚ) : newWidth w h = 2 * newHeight w h := by
  unfold newWidth newHeight
  rcases le_total w (h * 2) with hle | hle
  · rw [max_eq_right hle, max_eq_right (by linarith)]
    ring
  · rw [max_eq_left hle, max_eq_left (by linarith)]
    ring

/-! ## Claim C2 -/

/-- C2 counterexample: on an unsupported platform (`Darwin`) with the local
SkyFill executable already present, `ensure_skyfill` nevertheless fails with
the unsupported-platform error instead of returning the local copy — the
platform check is performed before the local-copy check, contradicting the
claim that the unsupported-platform check is reached only when no local copy
exists. -/
theorem skyfill_platform_before_local_cex :
    ensure_skyfill "Darwin" true true =
      ([], .error "SkyFill not available for Darwin") := by
  rfl

/-- C2 amended: `ensure_skyfill` consults the platform URL table first, so an
unsupported platform is fatal even when a local copy exists; on a supported
platform, a previously downloaded executable short-circuits the fetch and no
network request is made. -/
theorem ensure_skyfill_amended (system : String) (localExists extractYieldsExe : Bool) :
    (SKYFILL_URLS system = none →
      ensure_skyfill system localExists extractYieldsExe =
        ([], .error ("SkyFill not available for " ++ system))) ∧
    (∀ url, SKYFILL_URLS system = some url → localExists = true →
      ensure_skyfill system localExists extractYieldsExe =
        ([], .ok (skyfillExe system))) := by
  constructor
  · intro h
    simp [ensure_skyfill, h]
  · intro url h hl
    simp [ensure_skyfill, h, hl]

/-- C2 amended, witness: on Linux with a local copy present the fetcher
returns the executable with no download. -/
theorem ensure_skyfill_amended_witness :
    ensure_skyfill "Linux" true true = ([], .ok (skyfillExe "Linux")) :=
  (ensure_skyfill_amended "Linux" true true).2
    "https://stuvelfoto.nl/downloads/skyfill/skyfill-v1.6-linux.tar.gz" rfl rfl

/-! ## Claim C3 -/

/-- C3 counterexample: two distinct stages, `pto_gen` and `cpfind`, write the
same output path `temp/pano.pto`, so "no two stages write to the same path"
fails. -/
theorem stage_path_collision_cex :
    stageOutputPath "temp" "pto_gen" = stageOutputPath "temp" "cpfind" ∧
      "pto_gen" ≠ "cpfind" := by
  exact ⟨rfl, by decide⟩

/-- C3 amended: every stage's output path is a deterministic function of the
temp workspace and the stage name (namely `stageOutputPath`), and two stages
share an output path only when they share the output file — which happens
exactly for the four project-file stages (`pto_gen`, `cpfind`,
`autooptimiser`, `pano_modify`), all of which write `temp/pano.pto`; all
other stages' paths are mutually distinct. -/
theorem stage_paths_amended (tempDir n1 n2 : String)
    (h1 : n1 ∈ stageNames) (h2 : n2 ∈ stageNames) :
    (stageOutputPath tempDir n1 = stageOutputPath tempDir n2 ↔
      stageOutputFile n1 = stageOutputFile n2) ∧
    (stageOutputPath tempDir n1 = stageOutputPath tempDir n2 →
      n1 = n2 ∨ (n1 ∈ projectStages ∧ n2 ∈ projectStages)) := by
  have hiff : stageOutputPath tempDir n1 = stageOutputPath tempDir n2 ↔
      stageOutputFile n1 = stageOutputFile n2 := by
    simp [stageOutputPath, Prod.ext_iff]
  have key : ∀ a ∈ stageNames, ∀ b ∈ stageNames,
      stageOutputFile a = stageOutputFile b →
      a = b ∨ (a ∈ projectStages ∧ b ∈ projectStages) := by decide
  exact ⟨hiff, fun h => key n1 h1 n2 h2 (hiff.mp h)⟩

/-- C3 amended, witness: instantiated at the stages `nona` and `enblend`. -/
theorem stage_paths_amended_witness :
    (stageOutputPath "temp" "nona" = stageOutputPath "temp" "enblend" ↔
      stageOutputFile "nona" = stageOutputFile "enblend") ∧
    (stageOutputPath "temp" "nona" = stageOutputPath "temp" "enblend" →
      "nona" = "enblend" ∨ ("nona" ∈ projectStages ∧ "enblend" ∈ projectStages)) :=
  stage_paths_amended "temp" "nona" "enblend" (by decide) (by decide)

end PanoStitcher

namespace PanoStitcher

/-! ## Claim C4 -/

theorem isPrefixOf_self {α : Type} [BEq α] [LawfulBEq α] (l : List α) :
    l.isPrefixOf l = true := by
  induction l with
  | nil => simp [List.isPrefixOf]
  | cons c cs ih => simp [List.isPrefixOf, ih]

theorem mem_renameEntry_self {fs : FS} {src dst : EPath} (h : src ∈ fs) :
    dst ∈ renameEntry fs src dst := by
  unfold renameEntry
  refine List.mem_map.mpr ⟨src, h, ?_⟩
  simp [isPrefixOf_self, List.drop_length]


/-- C4 counterexample: when extraction leaves a single executable
`subdir/perl.exe`, the recursive search-and-relocate recovery moves it to the
root but — its name being neither `exiftool(-k).exe` nor `exiftool.exe` —
never produces the expected executable, and `ensure_exiftool` still returns
the path `exiftool.exe`, which names no existing file: the fetcher does not
fail fatally in this case. -/
theorem exiftool_phantom_path_cex :
    ensureExiftoolWin [] (fun _ => [["subdir", "perl.exe"]]) =
      .ok (exiftoolExePath, [["perl.exe"]]) ∧
      exiftoolExePath ∉ [["perl.exe"]] := by
  exact ⟨by decide, by decide⟩

/-- C4 amended: after download and extraction, `ensure_exiftool` fails
fatally when no `.exe` file exists anywhere in the extracted tree (and the
expected executable is absent); when the expected `exiftool.exe` or the
conventional `exiftool(-k).exe` is present, it returns the expected path and
that file exists.  Only the recursive search-and-relocate recovery branch can
return the expected path without the file existing — there the code performs
no re-check. -/
theorem ensure_exiftool_amended (fs : FS) (extract : FS → FS) :
    (exiftoolExePath ∈ fs ∨ exiftoolTempExePath ∈ extract fs ∨
        exiftoolExePath ∈ extract fs →
      ∃ fs1, ensureExiftoolWin fs extract = .ok (exiftoolExePath, fs1) ∧
        exiftoolExePath ∈ fs1) ∧
    (exiftoolExePath ∉ fs → exiftoolTempExePath ∉ extract fs →
      exiftoolExePath ∉ extract fs → rglobExe (extract fs) = [] →
      ensureExiftoolWin fs extract =
        .error "ExifTool executable not found after extraction") := by
  constructor
  · intro h
    by_cases h0 : exiftoolExePath ∈ fs
    · exact ⟨fs, by simp [ensureExiftoolWin, h0], h0⟩
    · have h' : exiftoolTempExePath ∈ extract fs ∨ exiftoolExePath ∈ extract fs := by
        rcases h with h | h | h
        · exact absurd h h0
        · exact Or.inl h
        · exact Or.inr h
      by_cases h1 : exiftoolTempExePath ∈ extract fs
      · refine ⟨renameEntry (extract fs) exiftoolTempExePath exiftoolExePath, ?_,
          mem_renameEntry_self h1⟩
        simp [ensureExiftoolWin, h0, exiftoolPostExtract, h1]
      · have h2 : exiftoolExePath ∈ extract fs := h'.resolve_left h1
        exact ⟨extract fs, by simp [ensureExiftoolWin, h0, exiftoolPostExtract, h1, h2], h2⟩
  · intro h0 h1 h2 hrg
    simp [ensureExiftoolWin, h0, exiftoolPostExtract, h1, h2, hrg]

/-- C4 amended, witness: extraction that produces no file at all is a fatal
error. -/
theorem ensure_exiftool_amended_witness :
    ensureExiftoolWin [] (fun _ => []) =
      .error "ExifTool executable not found after extraction" :=
  (ensure_exiftool_amended [] (fun _ => [])).2 (by decide) (by decide) (by decide) rfl

end PanoStitcher

namespace PanoStitcher

/-! ## Claim C5 -/


/-- C5 counterexample: for the logical tool name `magick`, the locator's
failure message is `ImageMagick not found in PATH`, which does not contain
the tool's name `magick` (the embedded `Magick` is capitalised), so "an
error message containing that tool's name" fails for this tool. -/
theorem magick_msg_lacks_name_cex :
    magickResolve envNoTools = .error "ImageMagick not found in PATH" ∧
      containsSub "ImageMagick not found in PATH" "magick" = false := by
  exact ⟨rfl, by decide⟩

/-- C5 amended: the tool locator never returns a path to a nonexistent file
(assuming `shutil.which` only returns existing files); on failure,
`find_tool`'s message is exactly `Tool '<name>' not found in Hugin directory
or PATH`, which contains the tool's name, while the `magick` resolver's
failure message is `ImageMagick not found in PATH`, which contains the name
only case-insensitively; and when tool resolution fails, the run exits
nonzero having invoked no pipeline stage. -/
theorem tool_locator_amended (env : Env) (name : String)
    (hw : ∀ n q, env.which n = some q → env.fileExists q = true) :
    (∀ q, find_tool env name = .ok q → env.fileExists q = true) ∧
    (∀ m, find_tool env name = .error m →
      m = toolNotFoundMsg name ∧ containsSub m name = true) ∧
    (∀ q, magickResolve env = .ok q → env.fileExists q = true) ∧
    (∀ m, magickResolve env = .error m →
      containsSub (toLowerStr m) "magick" = true) ∧
    (∀ w m, w.imagesIsDir = true → (resolveTools w.env).2 = .error m →
      (script w).2 = false ∧ (script w).1.all (fun e => !e.isRun) = true) := by
  have hfb_ok : ∀ q, findToolFallback env name = .ok q → env.fileExists q = true := by
    intro q hq
    unfold findToolFallback at hq
    rcases hwn : env.which name with _ | q0 <;> rw [hwn] at hq
    · exact absurd hq (by simp)
    · cases hq
      exact hw name q hwn
  have hfb_err : ∀ m, findToolFallback env name = .error m → m = toolNotFoundMsg name := by
    intro m hm
    unfold findToolFallback at hm
    rcases hwn : env.which name with _ | q0 <;> rw [hwn] at hm
    · cases hm
      rfl
    · exact absurd hm (by simp)
  refine ⟨?_, ?_, ?_, ?_, ?_⟩
  · intro q hq
    unfold find_tool at hq
    rcases hhb : huginBinDir env.system with _ | hb <;> simp only [hhb] at hq
    · exact hfb_ok q hq
    · by_cases hd : env.dirExists hb = true
      · rw [if_pos hd] at hq
        by_cases hf : env.fileExists (huginToolPath env name hb) = true
        · rw [if_pos hf] at hq
          cases hq
          exact hf
        · rw [if_neg hf] at hq
          exact hfb_ok q hq
      · rw [if_neg hd] at hq
        exact hfb_ok q hq
  · intro m hm
    have hmsg : m = toolNotFoundMsg name := by
      unfold find_tool at hm
      rcases hhb : huginBinDir env.system with _ | hb <;> simp only [hhb] at hm
      · exact hfb_err m hm
      · by_cases hd : env.dirExists hb = true
        · rw [if_pos hd] at hm
          by_cases hf : env.fileExists (huginToolPath env name hb) = true
          · rw [if_pos hf] at hm
            exact absurd hm (by simp)
          · rw [if_neg hf] at hm
            exact hfb_err m hm
        · rw [if_neg hd] at hm
          exact hfb_err m hm
    refine ⟨hmsg, ?_⟩
    rw [hmsg]
    exact containsSub_of_append "Tool '" name "' not found in Hugin directory or PATH"
  · intro q hq
    unfold magickResolve at hq
    rcases hwn : env.which "magick" with _ | q0 <;> rw [hwn] at hq
    · exact absurd hq (by simp)
    · cases hq
      exact hw "magick" q hwn
  · intro m hm
    have : m = "ImageMagick not found in PATH" := by
      unfold magickResolve at hm
      rcases hwn : env.which "magick" with _ | q0 <;> rw [hwn] at hm
      · cases hm
        rfl
      · exact absurd hm (by simp)
    rw [this]
    decide
  · intro w m himg herr
    constructor
    · simp only [script, himg, if_true]
      rw [pseq_error_of herr]
      rw [finish_eq_of_error rfl]
    · simp only [script, himg, if_true]
      rw [pseq_error_of herr]
      rw [finish_eq_of_error rfl]
      have h1 : (resolveTools w.env).1.all (fun e => !e.isRun) = true :=
        resolveTools_events_all w.env (fun n => by simp [Event.isRun])
      simp only [List.all_append, Bool.and_eq_true]
      exact ⟨h1, by simp [Event.isRun]⟩

/-- C5 amended, witness: with an empty search path, locating `pto_gen` fails
with a message equal to (and hence containing) `Tool 'pto_gen' not found in
Hugin directory or PATH`. -/
theorem tool_locator_amended_witness :
    toolNotFoundMsg "pto_gen" = toolNotFoundMsg "pto_gen" ∧
      containsSub (toolNotFoundMsg "pto_gen") "pto_gen" = true :=
  (tool_locator_amended envNoTools "pto_gen"
      (fun _ _ h => Option.noConfusion h)).2.1 (toolNotFoundMsg "pto_gen") rfl

end PanoStitcher

namespace PanoStitcher


/-! ## Claim C6 -/

/-- C6: with the skip-shortcut flag set, when a stage group's expected output
file already exists (`temp/stitched.tif` for the stitch group,
`temp/resized.jpg` for the resize group), no external command of that stage
group is invoked during the whole run. -/
theorem skip_flag_no_group_cmds (w : World) (hd : w.debugSkip = true) :
    (w.stitchedExists = true →
      (script w).1.all (fun e => !e.isRunOf .stitch) = true) ∧
    (w.resizedExists = true →
      (script w).1.all (fun e => !e.isRunOf .resize) = true) := by
  constructor
  · intro hst
    exact script_events_all w (fun n => rfl) (fun u => rfl)
      (Or.inl (by rw [hd, hst]; rfl)) (Or.inr fun c => rfl) (fun c => rfl) (fun c => rfl)
      (fun s d2 => rfl) rfl (fun m => rfl)
  · intro hrz
    exact script_events_all w (fun n => rfl) (fun u => rfl)
      (Or.inr fun c => rfl) (Or.inl (by rw [hd, hrz]; rfl)) (fun c => rfl) (fun c => rfl)
      (fun s d2 => rfl) rfl (fun m => rfl)

/-- C6 witness: the healthy debug-skip run invokes no stitch and no resize
command. -/
theorem skip_flag_no_group_cmds_witness :
    (script wGood).1.all (fun e => !e.isRunOf .stitch) = true ∧
      (script wGood).1.all (fun e => !e.isRunOf .resize) = true :=
  ⟨(skip_flag_no_group_cmds wGood rfl).1 rfl,
   (skip_flag_no_group_cmds wGood rfl).2 rfl⟩

end PanoStitcher

namespace PanoStitcher

/-! ## Claim C7 -/

/-- C7: on the success path the temp workspace is removed as the very last
action of the run; on any fatal failure no removal of the temp workspace ever
happened. -/
theorem cleanup_last_on_success_never_on_failure (w : World) :
    ((script w).2 = true → ∃ pre, (script w).1 = pre ++ [Event.rmTree "temp"]) ∧
    ((script w).2 = false → (script w).1.all (fun e => !e.isRmTree) = true) := by
  constructor
  · intro hs
    cases himg : w.imagesIsDir with
    | false => rw [script] at hs; simp [himg] at hs
    | true =>
      simp only [script, himg, if_true] at hs ⊢
      have hX := finish_true_ok hs
      rw [finish_eq_of_ok hX]
      obtain ⟨tools, hr1, hk1, ht1⟩ := pseq_ok_decomp hX
      obtain ⟨sky, hr2, hk2, ht2⟩ := pseq_ok_decomp hk1
      obtain ⟨exif, hr3, hk3, ht3⟩ := pseq_ok_decomp hk2
      obtain ⟨u4, hr4, hk4, ht4⟩ := pseq_ok_decomp hk3
      obtain ⟨u5, hr5, hk5, ht5⟩ := pseq_ok_decomp hk4
      obtain ⟨u6, hr6, hk6, ht6⟩ := pseq_ok_decomp hk5
      obtain ⟨u7, hr7, hk7, ht7⟩ := pseq_ok_decomp hk6
      obtain ⟨u8, hr8, hk8, ht8⟩ := pseq_ok_decomp hk7
      obtain ⟨u9, hr9, hk9, ht9⟩ := pseq_ok_decomp hk8
      rw [ht1, ht2, ht3, ht4, ht5, ht6, ht7, ht8, ht9]
      exact ends_with_append (ends_with_append (ends_with_append (ends_with_append
        (ends_with_append (ends_with_append (ends_with_append (ends_with_append
          (ends_with_append ⟨[], rfl⟩))))))))
  · intro hf
    exact script_fail_all w (fun n => rfl) (fun u => rfl) (fun g c => rfl)
      (fun s d2 => rfl) (fun m => rfl) hf

/-- C7 witness: the healthy run's trace ends with the removal of `temp`,
and the run that fails mid-pipeline (SkyFill produced no output) performs no
removal at all. -/
theorem cleanup_last_on_success_never_on_failure_witness :
    (∃ pre, (script wGood).1 = pre ++ [Event.rmTree "temp"]) ∧
      (script wFailMid).1.all (fun e => !e.isRmTree) = true :=
  ⟨(cleanup_last_on_success_never_on_failure wGood).1 rfl,
   (cleanup_last_on_success_never_on_failure wFailMid).2 rfl⟩

/-! ## Claim C8 -/

/-- C8: if the supplied image folder is not a directory, the run exits
nonzero immediately — before any tool lookup, any download and any external
command. -/
theorem missing_input_early_exit (w : World) (h : w.imagesIsDir = false) :
    script w = ([.failEvent "Image folder does not exist"], false) ∧
    (script w).1.all
      (fun e => !e.isToolLookup && !e.isDownload && !e.isRun) = true := by
  have h1 : script w = ([.failEvent "Image folder does not exist"], false) := by
    simp [script, h]
  refine ⟨h1, ?_⟩
  rw [h1]
  rfl

/-- C8 witness: the run whose image folder is missing. -/
theorem missing_input_early_exit_witness :
    script wNoDir = ([.failEvent "Image folder does not exist"], false) ∧
    (script wNoDir).1.all
      (fun e => !e.isToolLookup && !e.isDownload && !e.isRun) = true :=
  missing_input_early_exit wNoDir rfl

end PanoStitcher

namespace PanoStitcher

/-! ## Claim C9 -/

/-- C9: the only tree the run ever removes is `temp`, and removing the
`temp` tree leaves every file under `tools/` and `output/` — in particular
the final image `output/<input-folder-name>_pano.jpg` — untouched. -/
theorem cleanup_removes_only_temp (w : World) (fs : List (List String)) :
    ((script w).1.all
      (fun e => match e with | .rmTree d => d == "temp" | _ => true) = true) ∧
    (∀ q ∈ fs, (q.head? = some "tools" ∨ q.head? = some "output") →
      q ∈ rmtreeFS fs "temp") ∧
    (["output", w.imagesName ++ "_pano.jpg"] ∈ fs →
      ["output", w.imagesName ++ "_pano.jpg"] ∈ rmtreeFS fs "temp") := by
  refine ⟨?_, ?_, ?_⟩
  · exact script_events_all w (fun n => rfl) (fun u => rfl) (Or.inr fun c => rfl)
      (Or.inr fun c => rfl) (fun c => rfl) (fun c => rfl) (fun s d2 => rfl) rfl
      (fun m => rfl)
  · intro q hq hhead
    apply List.mem_filter.mpr
    refine ⟨hq, ?_⟩
    rcases hhead with h | h <;> rw [h] <;> rfl
  · intro hmem
    apply List.mem_filter.mpr
    exact ⟨hmem, rfl⟩

/-- C9 witness: in a layout holding one temp file, one cached tool and the
final image of the healthy run, the final image survives the cleanup. -/
theorem cleanup_removes_only_temp_witness :
    ["output", wGood.imagesName ++ "_pano.jpg"] ∈
      rmtreeFS [["temp", "resized.jpg"], ["tools", "skyfill", "skyfill"],
        ["output", "shots_pano.jpg"]] "temp" :=
  (cleanup_removes_only_temp wGood
      [["temp", "resized.jpg"], ["tools", "skyfill", "skyfill"],
        ["output", "shots_pano.jpg"]]).2.2 (by decide)

/-! ## Claim C10 -/

theorem countP_zero_of_all {l : List Event} {p : Event → Bool}
    (h : l.all (fun e => !p e) = true) : l.countP p = 0 := by
  rw [List.countP_eq_zero]
  simp only [List.all_eq_true, Bool.not_eq_true'] at h
  intro a ha
  simp [h a ha]

theorem runSeq_ok_events {w : World} {g : StageGroup} {cmds : List (List String)} {u : Unit}
    (h : (runSeq w g cmds).2 = .ok u) :
    (runSeq w g cmds).1 = cmds.map (Event.runCmd g) := by
  induction cmds with
  | nil => rfl
  | cons c rest ih =>
    simp only [runSeq] at h ⊢
    obtain ⟨a, hruns, hrest, htr⟩ := pseq_ok_decomp h
    rw [htr, ih hrest]
    rfl

/-- C10: with the skip flag set, when `temp/resized.jpg` exists but
`temp/stitched.tif` does not, a successful run re-executes all six stitch
commands, executes no resize command, and the sky-fill stage still consumes
the pre-existing (stale) `temp/resized.jpg`. -/
theorem stale_resized_reused (w : World)
    (hd : w.debugSkip = true) (hst : w.stitchedExists = false)
    (hrz : w.resizedExists = true) (hs : (script w).2 = true) :
    ((script w).1.countP (fun e => e.isRunOf .stitch) = 6) ∧
    ((script w).1.countP (fun e => e.isRunOf .resize) = 0) ∧
    (∃ sky, Event.runCmd .sky (skyCmd sky) ∈ (script w).1 ∧
      (skyCmd sky).getLast? = some resizedPath) := by
  cases himg : w.imagesIsDir with
  | false => rw [script] at hs; simp [himg] at hs
  | true =>
    simp only [script, himg, if_true] at hs ⊢
    have hX := finish_true_ok hs
    rw [finish_eq_of_ok hX]
    obtain ⟨tools, hr1, hk1, ht1⟩ := pseq_ok_decomp hX
    obtain ⟨sky, hr2, hk2, ht2⟩ := pseq_ok_decomp hk1
    obtain ⟨exif, hr3, hk3, ht3⟩ := pseq_ok_decomp hk2
    obtain ⟨u4, hr4, hk4, ht4⟩ := pseq_ok_decomp hk3
    obtain ⟨u5, hr5, hk5, ht5⟩ := pseq_ok_decomp hk4
    obtain ⟨u6, hr6, hk6, ht6⟩ := pseq_ok_decomp hk5
    obtain ⟨u7, hr7, hk7, ht7⟩ := pseq_ok_decomp hk6
    obtain ⟨u8, hr8, hk8, ht8⟩ := pseq_ok_decomp hk7
    obtain ⟨u9, hr9, hk9, ht9⟩ := pseq_ok_decomp hk8
    have hsp : stitchP w tools = runSeq w .stitch (stitchCmds w tools) := by
      simp [stitchP, hd, hst]
    have hrez : resizeP w tools = ([], Except.ok ()) := by
      simp [resizeP, hd, hrz]
    rw [hsp] at hr4 ht4
    rw [hrez] at ht5
    have hstev : (runSeq w .stitch (stitchCmds w tools)).1 =
        (stitchCmds w tools).map (Event.runCmd .stitch) := runSeq_ok_events hr4
    rw [ht1, ht2, ht3, hsp, ht4, hrez, ht5, ht6, ht7, ht8, ht9, hstev]
    have z1s : (resolveTools w.env).1.countP (fun e => e.isRunOf .stitch) = 0 :=
      countP_zero_of_all (resolveTools_events_all w.env fun n => rfl)
    have z2s : (skyfillP w).1.countP (fun e => e.isRunOf .stitch) = 0 :=
      countP_zero_of_all (skyfillP_events_all w fun u => rfl)
    have z3s : (exiftoolP w).1.countP (fun e => e.isRunOf .stitch) = 0 :=
      countP_zero_of_all (exiftoolP_events_all w fun u => rfl)
    have z7s : (checkSkyOutP w).1.countP (fun e => e.isRunOf .stitch) = 0 :=
      countP_zero_of_all (checkSkyOutP_events_all w)
    have h6s : ((stitchCmds w tools).map (Event.runCmd .stitch)).countP
        (fun e => e.isRunOf .stitch) = 6 := by
      have hall : ∀ a ∈ (stitchCmds w tools).map (Event.runCmd .stitch),
          (fun e => e.isRunOf StageGroup.stitch) a = true := by
        intro a ha
        obtain ⟨c, _, rfl⟩ := List.mem_map.mp ha
        rfl
      rw [List.countP_eq_length.mpr hall, List.length_map]
      rfl
    have z1r : (resolveTools w.env).1.countP (fun e => e.isRunOf .resize) = 0 :=
      countP_zero_of_all (resolveTools_events_all w.env fun n => rfl)
    have z2r : (skyfillP w).1.countP (fun e => e.isRunOf .resize) = 0 :=
      countP_zero_of_all (skyfillP_events_all w fun u => rfl)
    have z3r : (exiftoolP w).1.countP (fun e => e.isRunOf .resize) = 0 :=
      countP_zero_of_all (exiftoolP_events_all w fun u => rfl)
    have z4r : ((stitchCmds w tools).map (Event.runCmd .stitch)).countP
        (fun e => e.isRunOf .resize) = 0 := by
      apply countP_zero_of_all
      simp only [List.all_eq_true]
      intro a ha
      obtain ⟨c, _, rfl⟩ := List.mem_map.mp ha
      rfl
    have z7r : (checkSkyOutP w).1.countP (fun e => e.isRunOf .resize) = 0 :=
      countP_zero_of_all (checkSkyOutP_events_all w)
    refine ⟨?_, ?_, ⟨sky, ?_, rfl⟩⟩
    · simp only [List.countP_append, z1s, z2s, z3s, z7s, h6s]
      rfl
    · simp only [List.countP_append, z1r, z2r, z3r, z4r, z7r]
      rfl
    · refine List.mem_append.mpr (Or.inr ?_)
      refine List.mem_append.mpr (Or.inr ?_)
      refine List.mem_append.mpr (Or.inr ?_)
      refine List.mem_append.mpr (Or.inr ?_)
      refine List.mem_append.mpr (Or.inr ?_)
      refine List.mem_append.mpr (Or.inl ?_)
      exact List.mem_singleton.mpr rfl

/-- C10 witness: the healthy debug-skip run with `temp/stitched.tif` missing
and `temp/resized.jpg` present. -/
theorem stale_resized_reused_witness :
    ((script wStale).1.countP (fun e => e.isRunOf .stitch) = 6) ∧
    ((script wStale).1.countP (fun e => e.isRunOf .resize) = 0) ∧
    (∃ sky, Event.runCmd .sky (skyCmd sky) ∈ (script wStale).1 ∧
      (skyCmd sky).getLast? = some resizedPath) :=
  stale_resized_reused wStale rfl rfl rfl rfl

end PanoStitcher
